import Mathlib

/-!
Shallow embedding of the Tendermint light-client misbehaviour handler
(`x/ibc/light-clients/07-tendermint/types/misbehaviour_handle.go`):
`CheckMisbehaviourAndUpdateState` and `checkMisbehaviourHeader`, together
with the data the handler reads (client state, consensus state, headers,
heights, context parameters).

Time instants and durations are modelled as `Int` (Go nanoseconds);
unsigned 64-bit height arithmetic is modelled explicitly with `% 2^64`
and an explicit reinterpretation into the signed 64-bit range where the
source casts `uint64` to `int64`.

External collaborators that the handler calls but whose code lives
outside this file's source (the consensus-state store, protobuf decoding
of validator sets and commits, `checkTrustedHeader`, chain-id epoch
formatting, and Tendermint commit verification) are modelled as injected
parameters or as outcome fields, following the spec's description of
them as collaborators specified only at their interface boundary.
-/

namespace TmMisbehaviour

/-- Height of a counterparty chain: a `(version_number, version_height)`
pair, both unsigned 64-bit in the source (modelled as `Nat`). -/
structure Height where
  versionNumber : Nat
  versionHeight : Nat
deriving DecidableEq, Repr

/-- Modelled from the spec: heights are ordered lexicographically, the
version/epoch number first ("`latest_height`: monotonically
non-decreasing pair"); `LTE` is the "at or before" comparison used by
the frozen-height check. The implementation of `Height.LTE` is not under
the analysed sources. -/
def Height.LTE (a b : Height) : Bool :=
  a.versionNumber < b.versionNumber ||
    (a.versionNumber == b.versionNumber && a.versionHeight ≤ b.versionHeight)

/-- Modelled from the spec: `frozen_height` is "optional"; the zero
height encodes the unset state (the convention `IsZero` tests in the
source repository). -/
def Height.IsZero (h : Height) : Bool :=
  h.versionNumber == 0 && h.versionHeight == 0

/-- Trust level: rational fraction numerator/denominator. -/
structure Fraction where
  numerator : Nat
  denominator : Nat
deriving DecidableEq, Repr

/-- ClientState of the Tendermint light client. Durations are Go
nanosecond counts. `remainingConfig` stands for the remaining
configuration fields the spec groups as "all remaining configuration";
none of them is read by the misbehaviour path. -/
structure ClientState where
  chainID : String
  trustLevel : Fraction
  trustingPeriod : Int
  unbondingPeriod : Int
  maxClockDrift : Int
  latestHeight : Height
  frozenHeight : Height
  remainingConfig : String
deriving DecidableEq, Repr

/-- Modelled from the spec: a client is frozen when its optional
`frozen_height` is set (non-zero). -/
def ClientState.IsFrozen (cs : ClientState) : Bool :=
  !cs.frozenHeight.IsZero

/-- GetChainID returns the client's chain identifier. -/
def ClientState.GetChainID (cs : ClientState) : String :=
  cs.chainID

/-- ConsensusState stored per trusted height: counterparty block time,
commitment root, and the hash of the next validator set. -/
structure ConsensusState where
  timestamp : Int
  root : Nat
  nextValidatorsHash : Nat
deriving DecidableEq, Repr

/-- Header of a misbehaviour submission. `trustedValidatorsValid` and
`commitValid` record the outcome of the protobuf decoding collaborators
(`ValidatorSetFromProto` / `CommitFromProto`), which are external to the
analysed source; `trustedValidatorsHash` is the hash of the header's
declared trusted validator set. -/
structure Header where
  height : Height
  trustedHeight : Height
  timestamp : Int
  trustedValidatorsValid : Bool
  commitValid : Bool
  trustedValidatorsHash : Nat
deriving DecidableEq, Repr

/-- Misbehaviour: a pair of conflicting headers. -/
structure Misbehaviour where
  header1 : Header
  header2 : Header
deriving DecidableEq, Repr

/-- Modelled from the spec: the misbehaviour's height, the overlapping
height at which the two headers conflict, taken as header1's height. -/
def Misbehaviour.GetHeight (m : Misbehaviour) : Height :=
  m.header1.height

/-- Modelled from the spec: "`misbehaviourTime` is the minimum of the
two headers' timestamps". -/
def Misbehaviour.GetTime (m : Misbehaviour) : Int :=
  min m.header1.timestamp m.header2.timestamp

/-- Argument of the handler before the type assertion
`misbehaviour.(*Misbehaviour)`: either a Tendermint misbehaviour or a
value of some other client variant. -/
inductive ExportedMisbehaviour where
  | tendermint (m : Misbehaviour)
  | otherClient
deriving DecidableEq, Repr

/-- Evidence consensus parameters read from the context. -/
structure EvidenceParams where
  maxAgeNumBlocks : Int
  maxAgeDuration : Int
deriving DecidableEq, Repr

/-- Consensus parameters; the `Evidence` sub-structure is a nilable
pointer in the source. -/
structure ConsensusParams where
  evidence : Option EvidenceParams
deriving DecidableEq, Repr

/-- Context collaborator: block time and (nilable) consensus params. -/
structure Context where
  blockTime : Int
  consensusParams : Option ConsensusParams
deriving DecidableEq, Repr

/-- Collaborator operations injected into the per-header check: chain-id
epoch formatting (`IsEpochFormat` / `SetEpochNumber`, the latter
returning its new chain-id string together with a success flag standing
for Go's `(string, error)` pair, `true` meaning no error), and the
Tendermint commit verification `VerifyCommitLightTrusting` applied to
the header's decoded trusted validator set and commit, a chain id and
the client's trust level. -/
structure Ops where
  isEpochFormat : String → Bool
  setEpochNumber : String → Nat → String × Bool
  verifyCommitLightTrusting : Header → String → Fraction → Bool

/-- Modelled from the spec: `checkTrustedHeader` verifies the trusted
fields, i.e. that the header's trusted validator set hash-matches the
trusted ConsensusState's `next_validators_hash`. -/
def checkTrustedHeader (header : Header) (consState : ConsensusState) : Bool :=
  header.trustedValidatorsHash == consState.nextValidatorsHash

/-- Error kinds of the per-header check `checkMisbehaviourHeader`, one
per distinct error return site. -/
inductive HeaderErr where
  | invalidTrustedValidatorSet
  | invalidCommit
  | trustedFieldsMismatch
  | unbondingPeriodExpired
  | insufficientTrustedPower
deriving DecidableEq, Repr

/-- Error kinds of `CheckMisbehaviourAndUpdateState`, one per distinct
error return site; header-check failures are wrapped tagged with the
header that failed. -/
inductive Err where
  | invalidClientType
  | alreadyFrozen
  | trustedConsensusStateNotFound1
  | trustedConsensusStateNotFound2
  | staleMisbehaviour
  | header1Failed (e : HeaderErr)
  | header2Failed (e : HeaderErr)
deriving DecidableEq, Repr

/-- Signed reinterpretation of an unsigned 64-bit value: the `int64(x)`
cast applied to a `uint64` in the source. -/
def int64ofUInt64 (n : Nat) : Int :=
  if n % 2 ^ 64 < 2 ^ 63 then ((n % 2 ^ 64 : Nat) : Int)
  else ((n % 2 ^ 64 : Nat) : Int) - 2 ^ 64

/-- Unsigned 64-bit subtraction, wrapping modulo `2^64` as Go's `uint64`
subtraction does. -/
def uint64sub (a b : Nat) : Nat :=
  (a % 2 ^ 64 + 2 ^ 64 - b % 2 ^ 64) % 2 ^ 64

/-- The `ageBlocks` computation of `CheckMisbehaviourAndUpdateState`
(lines 58-70 of the source): inside the same version/epoch it is
`int64(cs.LatestHeight.VersionHeight - infractionHeight)` on `uint64`
operands; across epochs it is `0`, disabling the block-based check. -/
def ageBlocksOf (cs : ClientState) (m : Misbehaviour) : Int :=
  if m.GetHeight.versionNumber == cs.latestHeight.versionNumber then
    int64ofUInt64 (uint64sub cs.latestHeight.versionHeight m.GetHeight.versionHeight)
  else
    0

/-- The per-header check `checkMisbehaviourHeader` (lines 116-159 of the
source): decode the trusted validator set and the commit, check the
trusted fields against the ConsensusState, reject if the trusted basis
is older than the unbonding period, substitute the header's epoch number
into an epoch-formatted chain id (discarding the substitution error, as
the source's `chainID, _ =` does), and verify the commit against the
trusted validator set. Returns `none` on success. -/
def checkMisbehaviourHeader (ops : Ops) (clientState : ClientState)
    (consState : ConsensusState) (header : Header) (currentTimestamp : Int) :
    Option HeaderErr :=
  if !header.trustedValidatorsValid then
    some .invalidTrustedValidatorSet
  else if !header.commitValid then
    some .invalidCommit
  else if !checkTrustedHeader header consState then
    some .trustedFieldsMismatch
  else if currentTimestamp - consState.timestamp ≥ clientState.unbondingPeriod then
    some .unbondingPeriodExpired
  else
    let chainID := clientState.GetChainID
    let chainID :=
      if ops.isEpochFormat chainID then
        (ops.setEpochNumber chainID header.height.versionNumber).1
      else chainID
    if !ops.verifyCommitLightTrusting header chainID clientState.trustLevel then
      some .insufficientTrustedPower
    else
      none

/-- The staleness rejection condition of the handler (the single `if`
condition at lines 84-92 of the source): the consensus params and their
`Evidence` sub-structure are non-nil, and the age duration exceeds
`MaxAgeDuration` or the age blocks exceed `MaxAgeNumBlocks`. -/
def isStaleMisbehaviour (consensusParams : Option ConsensusParams)
    (ageDuration ageBlocks : Int) : Bool :=
  match consensusParams with
  | none => false
  | some cp =>
    match cp.evidence with
    | none => false
    | some evidence =>
      decide (ageDuration > evidence.maxAgeDuration) ||
        decide (ageBlocks > evidence.maxAgeNumBlocks)

/-- The misbehaviour handler `CheckMisbehaviourAndUpdateState` (lines
22-112 of the source). The consensus-state store is the injected
function `clientStore` (the `GetConsensusState` collaborator); the
result models Go's `(exported.ClientState, error)` pair. -/
def CheckMisbehaviourAndUpdateState (ops : Ops) (cs : ClientState)
    (ctx : Context) (clientStore : Height → Option ConsensusState)
    (misbehaviour : ExportedMisbehaviour) :
    Option ClientState × Option Err :=
  match misbehaviour with
  | .otherClient => (none, some .invalidClientType)
  | .tendermint m =>
    if cs.IsFrozen && cs.frozenHeight.LTE m.GetHeight then
      (none, some .alreadyFrozen)
    else
      match clientStore m.header1.trustedHeight with
      | none => (none, some .trustedConsensusStateNotFound1)
      | some tmConsensusState1 =>
        match clientStore m.header2.trustedHeight with
        | none => (none, some .trustedConsensusStateNotFound2)
        | some tmConsensusState2 =>
          let infractionTime := m.GetTime
          let ageDuration := ctx.blockTime - infractionTime
          let ageBlocks := ageBlocksOf cs m
          if isStaleMisbehaviour ctx.consensusParams ageDuration ageBlocks then
            (none, some .staleMisbehaviour)
          else
            match checkMisbehaviourHeader ops cs tmConsensusState1 m.header1 ctx.blockTime with
            | some e => (none, some (.header1Failed e))
            | none =>
              match checkMisbehaviourHeader ops cs tmConsensusState2 m.header2 ctx.blockTime with
              | some e => (none, some (.header2Failed e))
              | none =>
                (some { cs with frozenHeight := m.GetHeight }, none)

/-! Concrete fixtures used to exercise the handler on closed inputs. -/

/-- Collaborators for which every external check passes and the chain id
is not epoch-formatted. -/
def opsOk : Ops :=
  ⟨fun _ => false, fun s _ => (s, true), fun _ _ _ => true⟩

/-- Collaborators for which commit verification always fails. -/
def opsReject : Ops :=
  ⟨fun _ => false, fun s _ => (s, true), fun _ _ _ => false⟩

/-- Collaborators for which the chain id is epoch-formatted and the
epoch substitution reports failure while returning the string "sub". -/
def opsSubstFail : Ops :=
  ⟨fun _ => true, fun _ _ => ("sub", false), fun _ _ _ => true⟩

/-- Collaborators identical to `opsSubstFail` except that the epoch
substitution reports success. -/
def opsSubstOk : Ops :=
  ⟨fun _ => true, fun _ _ => ("sub", true), fun _ _ _ => true⟩

/-- A trusted consensus state at timestamp 0 with validator-set hash 7. -/
def consA : ConsensusState := ⟨0, 0, 7⟩

/-- A store holding `consA` at every height. -/
def storeA : Height → Option ConsensusState := fun _ => some consA

/-- Header at height (0,6), trusted height (0,3), timestamp 10. -/
def headerA : Header := ⟨⟨0, 6⟩, ⟨0, 3⟩, 10, true, true, 7⟩

/-- Header at height (0,6), trusted height (0,4), timestamp 12. -/
def headerB : Header := ⟨⟨0, 6⟩, ⟨0, 4⟩, 12, true, true, 7⟩

/-- Header at height (0,2), trusted height (0,1), timestamp 8. -/
def headerC : Header := ⟨⟨0, 2⟩, ⟨0, 1⟩, 8, true, true, 7⟩

/-- Header at height (0,0). -/
def headerZero : Header := ⟨⟨0, 0⟩, ⟨0, 0⟩, 10, true, true, 7⟩

/-- Header at height (0,11), above `csA`'s latest height. -/
def headerEleven : Header := ⟨⟨0, 11⟩, ⟨0, 3⟩, 10, true, true, 7⟩

/-- Misbehaviour at height (0,6). -/
def misA : Misbehaviour := ⟨headerA, headerB⟩

/-- Misbehaviour at height (0,2). -/
def misC : Misbehaviour := ⟨headerC, headerC⟩

/-- Misbehaviour at height (0,0). -/
def misZero : Misbehaviour := ⟨headerZero, headerZero⟩

/-- Misbehaviour at height (0,11). -/
def misEleven : Misbehaviour := ⟨headerEleven, headerEleven⟩

/-- An unfrozen client at latest height (0,10) with unbonding period
200. -/
def csA : ClientState :=
  ⟨"chain", ⟨1, 3⟩, 100, 200, 5, ⟨0, 10⟩, ⟨0, 0⟩, "cfg"⟩

/-- `csA` frozen at height (0,6). -/
def csFrozen6 : ClientState := { csA with frozenHeight := ⟨0, 6⟩ }

/-- `csA` frozen at height (0,2). -/
def csFrozen2 : ClientState := { csA with frozenHeight := ⟨0, 2⟩ }

/-- `csA` with latest height (0, 2^63). -/
def csBig : ClientState := { csA with latestHeight := ⟨0, 2 ^ 63⟩ }

/-- Context at block time 50 with generous evidence parameters. -/
def ctxA : Context := ⟨50, some ⟨some ⟨1000, 1000⟩⟩⟩

/-- Context at block time 5000 (past `maxAgeDuration = 1000` relative to
the fixture headers) with `maxAgeNumBlocks = 1000`. -/
def ctxStale : Context := ⟨5000, some ⟨some ⟨1000, 1000⟩⟩⟩

/-- Context with nil consensus params at a very large block time. -/
def ctxNoParams : Context := ⟨1000000000000, none⟩

/-- C3: whenever the client's frozen height is set and is at or before
(`LTE`) the misbehaviour's height, `CheckMisbehaviourAndUpdateState`
rejects with the already-frozen error; the universal quantification over
the store and the collaborator operations shows the rejection happens
before any consensus state is read and before any header verification. -/
theorem frozen_at_or_before_misbehaviour_rejects
    (ops : Ops) (cs : ClientState) (ctx : Context)
    (clientStore : Height → Option ConsensusState) (m : Misbehaviour)
    (hfrozen : cs.IsFrozen = true)
    (hlte : cs.frozenHeight.LTE m.GetHeight = true) :
    CheckMisbehaviourAndUpdateState ops cs ctx clientStore (.tendermint m) =
      (none, some .alreadyFrozen) := by
  simp [CheckMisbehaviourAndUpdateState, hfrozen, hlte]

/-- Witness for C3: a client frozen at (0,4) rejects a misbehaviour at
height (0,6), with an empty store. -/
theorem frozen_at_or_before_misbehaviour_rejects_witness :
    CheckMisbehaviourAndUpdateState opsOk { csA with frozenHeight := ⟨0, 4⟩ }
        ctxA (fun _ => none) (.tendermint misA) =
      (none, some .alreadyFrozen) :=
  frozen_at_or_before_misbehaviour_rejects opsOk _ ctxA (fun _ => none) misA
    (by decide) (by decide)

/-- C5: in `checkMisbehaviourHeader`, once the trusted validator set and
commit decode and the trusted fields match the consensus state, an age
`currentTimestamp - consState.timestamp` at or above the unbonding
period fails with `unbondingPeriodExpired`, for every collaborator
`ops` — in particular the commit-power check is never consulted. -/
theorem unbonding_period_expired_rejects
    (ops : Ops) (clientState : ClientState) (consState : ConsensusState)
    (header : Header) (currentTimestamp : Int)
    (hv : header.trustedValidatorsValid = true)
    (hc : header.commitValid = true)
    (ht : checkTrustedHeader header consState = true)
    (hexp : currentTimestamp - consState.timestamp ≥ clientState.unbondingPeriod) :
    checkMisbehaviourHeader ops clientState consState header currentTimestamp =
      some .unbondingPeriodExpired := by
  simp [checkMisbehaviourHeader, hv, hc, ht, hexp]

/-- Witness for C5: at block time 10000 the fixture client's unbonding
period (200) is long expired, and the check fails with
`unbondingPeriodExpired` even though the injected commit verification
always rejects (so its outcome is demonstrably irrelevant). -/
theorem unbonding_period_expired_rejects_witness :
    checkMisbehaviourHeader opsReject csA consA headerA 10000 =
      some .unbondingPeriodExpired :=
  unbonding_period_expired_rejects opsReject csA consA headerA 10000
    (by decide) (by decide) (by decide) (by decide)

/-- C6: `CheckMisbehaviourAndUpdateState` never returns a client state
together with an error: every return is either an error with no client
state or a client state with no error, so there is no partial-success
outcome (the input `cs` itself is immutable in this functional model,
matching Go's by-value receiver). -/
theorem error_implies_no_client_state
    (ops : Ops) (cs : ClientState) (ctx : Context)
    (clientStore : Height → Option ConsensusState)
    (misbehaviour : ExportedMisbehaviour) :
    (CheckMisbehaviourAndUpdateState ops cs ctx clientStore misbehaviour).1 = none ∨
      (CheckMisbehaviourAndUpdateState ops cs ctx clientStore misbehaviour).2 = none := by
  cases misbehaviour with
  | otherClient => simp [CheckMisbehaviourAndUpdateState]
  | tendermint m =>
    simp only [CheckMisbehaviourAndUpdateState]
    (repeat' split) <;> simp

/-- C8: whenever `CheckMisbehaviourAndUpdateState` returns a client
state, that state is exactly the input state with `frozenHeight`
replaced by the misbehaviour's height; by structure eta every other
field (chain id, trust level, periods, clock drift, latest height and
the remaining configuration) is unchanged. -/
theorem success_returns_input_with_frozen_height
    (ops : Ops) (cs : ClientState) (ctx : Context)
    (clientStore : Height → Option ConsensusState) (m : Misbehaviour)
    (cs' : ClientState)
    (h : (CheckMisbehaviourAndUpdateState ops cs ctx clientStore (.tendermint m)).1 =
      some cs') :
    cs' = { cs with frozenHeight := m.GetHeight } := by
  simp only [CheckMisbehaviourAndUpdateState] at h
  (repeat' split at h) <;> simp_all

/-- Witness for C8: the successful fixture run freezes `csA` at the
misbehaviour height (0,6) and changes nothing else. -/
theorem success_returns_input_with_frozen_height_witness :
    csFrozen6 = { csA with frozenHeight := misA.GetHeight } :=
  success_returns_input_with_frozen_height opsOk csA ctxA storeA misA csFrozen6
    (by decide)

/-- C9: when the context's consensus params, or their evidence
sub-structure, are nil, no input is ever rejected as stale: the
staleness check is skipped and the handler proceeds to per-header
verification whatever `ageDuration` and `ageBlocks` are. -/
theorem nil_consensus_params_skip_staleness
    (ops : Ops) (cs : ClientState) (ctx : Context)
    (clientStore : Height → Option ConsensusState) (m : Misbehaviour)
    (hnil : ctx.consensusParams = none ∨
      ∃ cp, ctx.consensusParams = some cp ∧ cp.evidence = none) :
    (CheckMisbehaviourAndUpdateState ops cs ctx clientStore (.tendermint m)).2 ≠
      some .staleMisbehaviour := by
  have hz : isStaleMisbehaviour ctx.consensusParams
      (ctx.blockTime - m.GetTime) (ageBlocksOf cs m) = false := by
    rcases hnil with hnone | ⟨cp, hcp, hev⟩
    · simp [isStaleMisbehaviour, hnone]
    · simp [isStaleMisbehaviour, hcp, hev]
  simp only [CheckMisbehaviourAndUpdateState, hz]
  (repeat' split) <;> simp_all

/-- Witness for C9: with nil consensus params at block time `10^12`
(an enormous `ageDuration`), the fixture run is not rejected as stale. -/
theorem nil_consensus_params_skip_staleness_witness :
    (CheckMisbehaviourAndUpdateState opsOk csA ctxNoParams storeA (.tendermint misA)).2 ≠
      some .staleMisbehaviour :=
  nil_consensus_params_skip_staleness opsOk csA ctxNoParams storeA misA (Or.inl rfl)

/-- C1 counterexample: at the fixture input the age duration (4990)
exceeds `maxAgeDuration` (1000) while the age blocks (4) do not exceed
`maxAgeNumBlocks` (1000) — so at least one of the two conditions is
false — yet the handler rejects with the stale-misbehaviour error,
refuting the claim that the rejection requires the conjunction of the
two conditions. -/
theorem stale_and_combinator_counterexample :
    ctxStale.blockTime - misA.GetTime > 1000 ∧
    ageBlocksOf csA misA ≤ 1000 ∧
    CheckMisbehaviourAndUpdateState opsOk csA ctxStale storeA (.tendermint misA) =
      (none, some .staleMisbehaviour) :=
  ⟨by decide, by decide, by decide⟩

/-- C1 (amended): with non-nil consensus params and their evidence
sub-structure, once the age computation is reached (client not frozen
at or before the misbehaviour height, both trusted consensus states
found in the store), the handler rejects with the stale-misbehaviour
error exactly when `ageDuration > maxAgeDuration` OR
`ageBlocks > maxAgeNumBlocks` — the source combines the two conditions
with a disjunction, not the conjunction the claim states — and proceeds
to header verification only when both conditions are false. -/
theorem stale_misbehaviour_iff_disjunction
    (ops : Ops) (cs : ClientState)
    (clientStore : Height → Option ConsensusState) (m : Misbehaviour)
    (c1 c2 : ConsensusState) (blockTime maxBlocks maxDuration : Int)
    (hnotfrozen : (cs.IsFrozen && cs.frozenHeight.LTE m.GetHeight) = false)
    (h1 : clientStore m.header1.trustedHeight = some c1)
    (h2 : clientStore m.header2.trustedHeight = some c2) :
    (CheckMisbehaviourAndUpdateState ops cs
        ⟨blockTime, some ⟨some ⟨maxBlocks, maxDuration⟩⟩⟩ clientStore
        (.tendermint m)).2 = some .staleMisbehaviour ↔
      (blockTime - m.GetTime > maxDuration ∨ ageBlocksOf cs m > maxBlocks) := by
  simp only [CheckMisbehaviourAndUpdateState, hnotfrozen, h1, h2, isStaleMisbehaviour,
    Bool.false_eq_true, if_false]
  (repeat' split) <;> simp_all

/-- Witness for C1 (amended): the fixture rejection is characterised by
the disjunction at block time 5000 with both maxima at 1000. -/
theorem stale_misbehaviour_iff_disjunction_witness :
    ((CheckMisbehaviourAndUpdateState opsOk csA
        ⟨5000, some ⟨some ⟨1000, 1000⟩⟩⟩ storeA
        (.tendermint misA)).2 = some .staleMisbehaviour ↔
      (5000 - misA.GetTime > 1000 ∨ ageBlocksOf csA misA > 1000)) :=
  stale_misbehaviour_iff_disjunction opsOk csA storeA misA consA consA 5000 1000 1000
    (by decide) rfl rfl

/-- C2 counterexample: starting unfrozen, a first fixture call freezes
`csA` at height (0,6); a second call at misbehaviour height (0,2),
which is at or before (0,6), does not fail with the already-frozen
error but succeeds — and it returns a frozen height (0,2) strictly
earlier than the already-set (0,6), falsifying both parts of the
claim. -/
theorem freeze_monotonicity_counterexample :
    CheckMisbehaviourAndUpdateState opsOk csA ctxA storeA (.tendermint misA) =
      (some csFrozen6, none) ∧
    Height.LTE misC.GetHeight csFrozen6.frozenHeight = true ∧
    CheckMisbehaviourAndUpdateState opsOk csFrozen6 ctxA storeA (.tendermint misC) =
      (some csFrozen2, none) ∧
    Height.LTE csFrozen2.frozenHeight csFrozen6.frozenHeight = true ∧
    csFrozen2.frozenHeight ≠ csFrozen6.frozenHeight :=
  ⟨by decide, by decide, by decide, by decide, by decide⟩

/-- C2 (amended): once the frozen height is set to `h`, any subsequent
check whose misbehaviour height `h'` satisfies `h ≤ h'` (at or after
the freeze — the opposite comparison to the claim's `h' ≤ h`) fails
with the already-frozen error; and whenever a check on a frozen client
returns a client state, its frozen height is strictly earlier than the
existing one — the frozen height can move earlier, never later. -/
theorem freeze_monotonicity
    (ops : Ops) (cs : ClientState) (ctx : Context)
    (clientStore : Height → Option ConsensusState) (m : Misbehaviour)
    (cs' : ClientState) (hfrozen : cs.IsFrozen = true) :
    (cs.frozenHeight.LTE m.GetHeight = true →
      CheckMisbehaviourAndUpdateState ops cs ctx clientStore (.tendermint m) =
        (none, some .alreadyFrozen)) ∧
    ((CheckMisbehaviourAndUpdateState ops cs ctx clientStore (.tendermint m)).1 =
        some cs' →
      cs.frozenHeight.LTE cs'.frozenHeight = false) := by
  constructor
  · intro hlte
    simp [CheckMisbehaviourAndUpdateState, hfrozen, hlte]
  · intro h
    simp only [CheckMisbehaviourAndUpdateState] at h
    split at h
    case isTrue => simp at h
    case isFalse hguard =>
      have hlte : cs.frozenHeight.LTE m.GetHeight = false := by
        simp [hfrozen] at hguard
        exact hguard
      (repeat' split at h) <;>
        first
          | (simp_all; done)
          | (simp only [Option.some.injEq] at h; rw [← h]; simpa using hlte)

/-- Witness for C2 (amended): applied to `csFrozen6` and the
height-(0,2) misbehaviour that re-freezes at (0,2). -/
theorem freeze_monotonicity_witness :
    (Height.LTE csFrozen6.frozenHeight misC.GetHeight = true →
      CheckMisbehaviourAndUpdateState opsOk csFrozen6 ctxA storeA (.tendermint misC) =
        (none, some .alreadyFrozen)) ∧
    ((CheckMisbehaviourAndUpdateState opsOk csFrozen6 ctxA storeA (.tendermint misC)).1 =
        some csFrozen2 →
      Height.LTE csFrozen6.frozenHeight csFrozen2.frozenHeight = false) :=
  freeze_monotonicity opsOk csFrozen6 ctxA storeA misC csFrozen2 (by decide)

/-- C4 counterexample: with latest height (0, 2^63) and a same-epoch
misbehaviour at epoch height 0, the int64 cast of the unsigned 64-bit
difference yields -2^63, not the arithmetic difference 2^63 the claim
asserts. -/
theorem ageBlocks_same_epoch_counterexample :
    misZero.GetHeight.versionNumber = csBig.latestHeight.versionNumber ∧
    ageBlocksOf csBig misZero = -(2 ^ 63) ∧
    ageBlocksOf csBig misZero ≠
      (csBig.latestHeight.versionHeight : Int) -
        (misZero.GetHeight.versionHeight : Int) :=
  ⟨by decide, by decide, by decide⟩

/-- C4 (amended): if the misbehaviour shares the client's latest
version/epoch number, `ageBlocks` is the int64 reinterpretation of the
wrapping unsigned 64-bit difference, which agrees with the claim's
arithmetic difference `latest_height.version_height - epoch_height`
whenever the epoch height is at most the latest version height and the
difference is below 2^63 (the int64-representable case); with a
different epoch number `ageBlocks` is 0, disabling the block-based
expiry check so staleness depends only on the age duration. -/
theorem ageBlocks_same_and_cross_epoch
    (cs : ClientState) (m : Misbehaviour)
    (hv : cs.latestHeight.versionHeight < 2 ^ 64)
    (hm : m.GetHeight.versionHeight < 2 ^ 64) :
    (m.GetHeight.versionNumber = cs.latestHeight.versionNumber →
      m.GetHeight.versionHeight ≤ cs.latestHeight.versionHeight →
      cs.latestHeight.versionHeight - m.GetHeight.versionHeight < 2 ^ 63 →
      ageBlocksOf cs m =
        (cs.latestHeight.versionHeight : Int) -
          (m.GetHeight.versionHeight : Int)) ∧
    (m.GetHeight.versionNumber ≠ cs.latestHeight.versionNumber →
      ageBlocksOf cs m = 0) := by
  constructor
  · intro hsame hle hlt
    simp only [ageBlocksOf, hsame, beq_self_eq_true, if_true]
    have e1 : uint64sub cs.latestHeight.versionHeight m.GetHeight.versionHeight =
        cs.latestHeight.versionHeight - m.GetHeight.versionHeight := by
      unfold uint64sub
      omega
    rw [e1]
    unfold int64ofUInt64
    rw [Nat.mod_eq_of_lt (by omega), if_pos (by omega)]
    omega
  · intro hne
    simp [ageBlocksOf, hne]

/-- Witness for C4 (amended): applied to the fixture client (latest
version height 10) and the height-(0,6) misbehaviour. -/
theorem ageBlocks_same_and_cross_epoch_witness :
    (misA.GetHeight.versionNumber = csA.latestHeight.versionNumber →
      misA.GetHeight.versionHeight ≤ csA.latestHeight.versionHeight →
      csA.latestHeight.versionHeight - misA.GetHeight.versionHeight < 2 ^ 63 →
      ageBlocksOf csA misA =
        (csA.latestHeight.versionHeight : Int) -
          (misA.GetHeight.versionHeight : Int)) ∧
    (misA.GetHeight.versionNumber ≠ csA.latestHeight.versionNumber →
      ageBlocksOf csA misA = 0) :=
  ageBlocks_same_and_cross_epoch csA misA (by decide) (by decide)

/-- C7 counterexample: with an epoch-formatted chain id whose epoch
substitution reports failure, `checkMisbehaviourHeader` returns no
error at all: the substitution failure is discarded and verification
proceeds (and here succeeds) with the string the substitution
returned — refuting the claim that the failure is returned to the
caller. -/
theorem epoch_substitution_failure_counterexample :
    opsSubstFail.isEpochFormat csA.GetChainID = true ∧
    (opsSubstFail.setEpochNumber csA.GetChainID headerA.height.versionNumber).2 = false ∧
    checkMisbehaviourHeader opsSubstFail csA consA headerA 50 = none :=
  ⟨rfl, rfl, by decide⟩

/-- C7 (amended): the per-header check ignores the error of the
epoch-number substitution entirely (the source discards it with a
blank identifier): two collaborator sets agreeing on the substituted
string, on the epoch-format test and on commit verification — but
possibly disagreeing on the substitution's reported error — produce
identical results, so a substitution failure is never returned to the
caller and verification always proceeds with the returned string. -/
theorem epoch_substitution_error_ignored
    (ops ops' : Ops) (clientState : ClientState) (consState : ConsensusState)
    (header : Header) (currentTimestamp : Int)
    (hef : ops.isEpochFormat = ops'.isEpochFormat)
    (hsub : ∀ s n, (ops.setEpochNumber s n).1 = (ops'.setEpochNumber s n).1)
    (hver : ops.verifyCommitLightTrusting = ops'.verifyCommitLightTrusting) :
    checkMisbehaviourHeader ops clientState consState header currentTimestamp =
      checkMisbehaviourHeader ops' clientState consState header currentTimestamp := by
  simp only [checkMisbehaviourHeader, hef, hver, hsub]

/-- Witness for C7 (amended): the failing and succeeding substitution
collaborators yield the same verification result. -/
theorem epoch_substitution_error_ignored_witness :
    checkMisbehaviourHeader opsSubstFail csA consA headerA 50 =
      checkMisbehaviourHeader opsSubstOk csA consA headerA 50 :=
  epoch_substitution_error_ignored opsSubstFail opsSubstOk csA consA headerA 50
    rfl (fun _ _ => rfl) rfl

/-- C10 counterexample: with latest height (0,10) and a same-epoch
misbehaviour at epoch height 11 (one block above), the computed
`ageBlocks` is -1 — exactly the negative arithmetic difference the
claim says it cannot be, and not a large positive value. -/
theorem ageBlocks_wrap_counterexample :
    csA.latestHeight.versionHeight < misEleven.GetHeight.versionHeight ∧
    misEleven.GetHeight.versionNumber = csA.latestHeight.versionNumber ∧
    ageBlocksOf csA misEleven =
      (csA.latestHeight.versionHeight : Int) -
        (misEleven.GetHeight.versionHeight : Int) ∧
    ageBlocksOf csA misEleven < 0 :=
  ⟨by decide, by decide, by decide, by decide⟩

/-- C10 (amended): for a same-epoch misbehaviour whose epoch height
exceeds the latest version height, the unsigned subtraction wraps
modulo 2^64 before the int64 cast; the resulting `ageBlocks` equals the
negative arithmetic difference whenever the overshoot is at most 2^63,
and only for an overshoot above 2^63 is it the large positive value
`2^64 - overshoot`; either way it feeds the staleness comparison. -/
theorem ageBlocks_overshoot
    (cs : ClientState) (m : Misbehaviour)
    (hsame : m.GetHeight.versionNumber = cs.latestHeight.versionNumber)
    (hlt : cs.latestHeight.versionHeight < m.GetHeight.versionHeight)
    (hm : m.GetHeight.versionHeight < 2 ^ 64) :
    (m.GetHeight.versionHeight - cs.latestHeight.versionHeight ≤ 2 ^ 63 →
      ageBlocksOf cs m =
        (cs.latestHeight.versionHeight : Int) -
          (m.GetHeight.versionHeight : Int)) ∧
    (2 ^ 63 < m.GetHeight.versionHeight - cs.latestHeight.versionHeight →
      ageBlocksOf cs m =
        (2 ^ 64 : Int) -
          ((m.GetHeight.versionHeight : Int) -
            (cs.latestHeight.versionHeight : Int))) := by
  have e1 : uint64sub cs.latestHeight.versionHeight m.GetHeight.versionHeight =
      cs.latestHeight.versionHeight + 2 ^ 64 - m.GetHeight.versionHeight := by
    unfold uint64sub
    omega
  constructor
  · intro hle
    simp only [ageBlocksOf, hsame, beq_self_eq_true, if_true]
    rw [e1]
    unfold int64ofUInt64
    rw [Nat.mod_eq_of_lt (by omega), if_neg (by omega)]
    omega
  · intro hgt
    simp only [ageBlocksOf, hsame, beq_self_eq_true, if_true]
    rw [e1]
    unfold int64ofUInt64
    rw [Nat.mod_eq_of_lt (by omega), if_pos (by omega)]
    omega

/-- Witness for C10 (amended): applied to the fixture client (latest
version height 10) and the height-(0,11) misbehaviour. -/
theorem ageBlocks_overshoot_witness :
    (misEleven.GetHeight.versionHeight - csA.latestHeight.versionHeight ≤ 2 ^ 63 →
      ageBlocksOf csA misEleven =
        (csA.latestHeight.versionHeight : Int) -
          (misEleven.GetHeight.versionHeight : Int)) ∧
    (2 ^ 63 < misEleven.GetHeight.versionHeight - csA.latestHeight.versionHeight →
      ageBlocksOf csA misEleven =
        (2 ^ 64 : Int) -
          ((misEleven.GetHeight.versionHeight : Int) -
            (csA.latestHeight.versionHeight : Int))) :=
  ageBlocks_overshoot csA misEleven (by decide) (by decide) (by decide)

end TmMisbehaviour
